import Mathlib

/-!
Verification of the weather-data ETL core of this repository against its
design specification.

The Python sources are shallowly embedded: Python dict/list/scalar payloads
become the inductive type `PyVal`; Python exceptions become the inductive
type `PyExc` and fallible code returns `Except PyExc _`; the database
connection's transaction state becomes an explicit `PgConn` record threaded
through the loader; outcomes of external calls (the HTTP client, the
database driver's execute) are passed in as explicit parameters.

Embedded components:
* `SQLExecutor._clean_format_in_dict` and `SQLExecutor.load_to_bronze`
  (src/on_premise/src/weather_etl/loaders/bronze_loader.py; an identical
  copy of `_clean_format_in_dict` lives in src/on_premise/src/loaders/bronze_loader.py);
* `DatabaseErrorLogger._truncate_message` and `DatabaseErrorLogger._log_api_error`
  (src/on_premise/src/weather_etl/extractors/database_error_logger.py);
* `OpenMeteoExtractor.__init__`, `_build_api_params`, `_parse_response`,
  `extract_forecast_data`
  (src/on_premise/src/extractors/open_meteo_api_extractor.py);
* `ExtractionOrchestrator.execute_extraction` and `_handle_error`
  (src/on_premise/src/weather_etl/extractors/extraction_orchestrator.py);
* `validate_silver_data` (src/on_premise/airflow/dags/silver_layer_dag.py);
* the bronze-to-silver insert path, modelled from the spec because the SQL
  script it executes is not part of the Python sources.
-/

/-- Model of a Python `datetime` value at second precision (the repository
never manipulates sub-second fields of the datetimes it stores). -/
structure PyDateTime where
  year : Nat
  month : Nat
  day : Nat
  hour : Nat
  minute : Nat
  second : Nat
deriving DecidableEq, Repr

/-- Left-pad the decimal representation of `n` with zeros to `width` digits,
as Python's `datetime.isoformat` does for each component. -/
def padZeros (width n : Nat) : String :=
  let s := toString n
  String.mk (List.replicate (width - s.length) '0') ++ s

/-- Model of Python `datetime.isoformat()`: the canonical
`YYYY-MM-DDTHH:MM:SS` textual encoding. -/
def PyDateTime.isoformat (d : PyDateTime) : String :=
  padZeros 4 d.year ++ "-" ++ padZeros 2 d.month ++ "-" ++ padZeros 2 d.day ++
    "T" ++ padZeros 2 d.hour ++ ":" ++ padZeros 2 d.minute ++ ":" ++ padZeros 2 d.second

mutual

/-- Model of the Python values the ETL passes around: JSON-style scalars,
byte-strings, datetimes, and nested dict/list containers. A `bytes` node
carries the text its UTF-8 bytes decode to (the repository only ever decodes
its byte-strings with `.decode("utf-8")`). -/
inductive PyVal : Type where
  | str (s : String)
  | bytes (b : String)
  | datetime (d : PyDateTime)
  | num (q : Rat)
  | bool (b : Bool)
  | none
  | dict (entries : PyEntries)
  | list (items : PyList)

/-- Entries of a Python dict, in insertion order. -/
inductive PyEntries : Type where
  | nil
  | cons (key : String) (value : PyVal) (rest : PyEntries)

/-- Items of a Python list, in order. -/
inductive PyList : Type where
  | nil
  | cons (head : PyVal) (rest : PyList)

end

mutual

/-- Embedding of `SQLExecutor._clean_format_in_dict` (bronze_loader.py):
recursively convert bytes/datetime values to strings in nested dict/list
structures, leaving every other value unchanged. -/
def clean_format_in_dict : PyVal → PyVal
  | .dict es => .dict (clean_format_entries es)
  | .list items => .list (clean_format_items items)
  | .bytes b => .str b
  | .datetime d => .str d.isoformat
  | v => v

/-- Dict branch of `_clean_format_in_dict`: rebuild the dict with every value
cleaned recursively and every key kept as is. -/
def clean_format_entries : PyEntries → PyEntries
  | .nil => .nil
  | .cons k v rest => .cons k (clean_format_in_dict v) (clean_format_entries rest)

/-- List branch of `_clean_format_in_dict`: clean each item in order. -/
def clean_format_items : PyList → PyList
  | .nil => .nil
  | .cons v rest => .cons (clean_format_in_dict v) (clean_format_items rest)

end

mutual

/-- A value is clean when no `bytes` and no `datetime` node occurs anywhere
in it, at any nesting depth. -/
def PyVal.is_clean : PyVal → Bool
  | .bytes _ => false
  | .datetime _ => false
  | .dict es => PyEntries.is_clean es
  | .list items => PyList.is_clean items
  | _ => true

/-- Cleanliness of every value of a dict. -/
def PyEntries.is_clean : PyEntries → Bool
  | .nil => true
  | .cons _ v rest => PyVal.is_clean v && PyEntries.is_clean rest

/-- Cleanliness of every item of a list. -/
def PyList.is_clean : PyList → Bool
  | .nil => true
  | .cons v rest => PyVal.is_clean v && PyList.is_clean rest

end

/-- Keys of a dict, in order. -/
def PyEntries.keys : PyEntries → List String
  | .nil => []
  | .cons k _ rest => k :: PyEntries.keys rest

/-- Length of an embedded Python list. -/
def PyList.length : PyList → Nat
  | .nil => 0
  | .cons _ rest => PyList.length rest + 1

/-- Item of an embedded Python list at position `i`, if present. -/
def PyList.get? : PyList → Nat → Option PyVal
  | .nil, _ => Option.none
  | .cons v _, 0 => some v
  | .cons _ rest, i + 1 => PyList.get? rest i

/-- Model of the Python exception values raised by the embedded code.
`openMeteoRequestsError` is the transport failure raised by the HTTP client,
`valueError` the content-validation failure raised by the extractor itself. -/
inductive PyExc : Type where
  | openMeteoRequestsError (msg : String)
  | valueError (msg : String)
  | typeError (msg : String)
  | keyError (msg : String)
  | indexError (msg : String)
  | exception (msg : String)
deriving DecidableEq, Repr

/-- Python's `type(e).__name__` for a modelled exception, the string the
orchestrator stores as `error_type`. -/
def PyExc.typeName : PyExc → String
  | .openMeteoRequestsError _ => "OpenMeteoRequestsError"
  | .valueError _ => "ValueError"
  | .typeError _ => "TypeError"
  | .keyError _ => "KeyError"
  | .indexError _ => "IndexError"
  | .exception _ => "Exception"

/-- Python's `str(e)` for a modelled exception. -/
def PyExc.message : PyExc → String
  | .openMeteoRequestsError m => m
  | .valueError m => m
  | .typeError m => m
  | .keyError m => m
  | .indexError m => m
  | .exception m => m

/-- Modelled from the spec: the closed error taxonomy of spec section 7, read
off an exception by its runtime type name (spec section 9 states the source
classifies errors "by exception name"): the transport failure raised by the
HTTP client is a `RequestError`, the extractor's own `ValueError` on empty or
malformed content is a `ValidationError`, anything else is unexpected. -/
def spec_error_class : PyExc → String
  | .openMeteoRequestsError _ => "RequestError"
  | .valueError _ => "ValidationError"
  | _ => "UnexpectedError"

/-- Subscripting a modelled Python dict, `obj[key]`: raises `KeyError` when
the key is absent and `TypeError` when the value is not a dict. -/
def dictGet (v : PyVal) (key : String) : Except PyExc PyVal :=
  match v with
  | .dict es => go es
  | _ => .error (.typeError "object is not subscriptable")
where
  /-- Walk the entries in order, first binding of the key wins. -/
  go : PyEntries → Except PyExc PyVal
    | .nil => .error (.keyError key)
    | .cons k val rest => if k = key then .ok val else go rest

/-- One row of `bronze.weather_raw` as `SQLExecutor.load_to_bronze` inserts
it: the eight columns of its parameterized INSERT, in order. -/
structure BronzeRow where
  location_name : PyVal
  latitude : PyVal
  longitude : PyVal
  timezone : PyVal
  api_retrieval_time : PyVal
  response_time_ms : PyVal
  created_at : PyDateTime
  raw_api_response : PyVal

/-- Transaction state of a psycopg2 connection: rows already committed to
`bronze.weather_raw` plus the uncommitted rows of the open transaction. -/
structure PgConn where
  committed : List BronzeRow
  pending : List BronzeRow

/-- Model of `conn.commit()`: the pending rows become durable. -/
def PgConn.commit (c : PgConn) : PgConn :=
  { committed := c.committed ++ c.pending, pending := [] }

/-- Model of `conn.rollback()`: the pending rows are discarded. -/
def PgConn.rollback (c : PgConn) : PgConn :=
  { committed := c.committed, pending := [] }

/-- Body of the `try` block of `SQLExecutor.load_to_bronze`
(weather_etl/loaders/bronze_loader.py, lines 124-141): clean the payload,
read the columns out of the dicts (each subscript may raise `KeyError`),
run the INSERT (`execOk` is the database driver's verdict, supplied by the
environment), then commit. Any raised exception is returned as `.error`. -/
def load_to_bronze_try (conn : PgConn) (data : PyVal) (now : PyDateTime)
    (execOk : Bool) : Except PyExc PgConn := do
  let cleaned := clean_format_in_dict data
  let loc ← dictGet data "location_name"
  let lat ← dictGet data "latitude"
  let lon ← dictGet data "longitude"
  let tz ← dictGet data "timezone"
  let md ← dictGet cleaned "metadata"
  let art ← dictGet md "api_retrieval_time"
  let rtm ← dictGet md "response_time_ms"
  let api ← dictGet cleaned "api_response"
  if execOk then
    let row : BronzeRow :=
      { location_name := loc, latitude := lat, longitude := lon, timezone := tz,
        api_retrieval_time := art, response_time_ms := rtm,
        created_at := now, raw_api_response := api }
    pure (PgConn.commit { conn with pending := conn.pending ++ [row] })
  else
    .error (.exception "cursor.execute raised")

/-- Embedding of `SQLExecutor.load_to_bronze`: the `try` body above wrapped
in the source's `except Exception` clause, which rolls the transaction back
and turns every exception into the return value `False`. -/
def load_to_bronze (conn : PgConn) (data : PyVal) (now : PyDateTime)
    (execOk : Bool) : Bool × PgConn :=
  match load_to_bronze_try conn data now execOk with
  | .ok conn2 => (true, conn2)
  | .error _ => (false, conn.rollback)

/-- Embedding of `DatabaseErrorLogger._truncate_message`: a message of at
most 1000 characters is stored verbatim, a longer one is cut to its first
1000 characters followed by the ellipsis marker. -/
def truncate_message (message : String) : String :=
  if message.length ≤ 1000 then message
  else String.mk (message.toList.take 1000) ++ "..."

/-- One row of `bronze.api_error_log` as `DatabaseErrorLogger._log_api_error`
inserts it. -/
structure ApiErrorRow where
  api_endpoint : String
  error_type : String
  error_message : String
  http_status_code : Option Int
  request_params : Option PyVal
  latitude : Rat
  longitude : Rat
  retry_attempt : Nat

/-- Embedding of `DatabaseErrorLogger._log_api_error`: build the error row
(message truncated), attempt the INSERT (`insertOk` is the database's
verdict); a persistence failure is swallowed and reported as `false`, never
re-raised. Returns the success flag and the rows actually inserted. -/
def log_api_error (api_endpoint error_type error_message : String)
    (latitude longitude : Rat) (http_status_code : Option Int)
    (request_params : Option PyVal) (retry_attempt : Nat)
    (insertOk : Bool) : Bool × List ApiErrorRow :=
  let row : ApiErrorRow :=
    { api_endpoint := api_endpoint, error_type := error_type,
      error_message := truncate_message error_message,
      http_status_code := http_status_code, request_params := request_params,
      latitude := latitude, longitude := longitude,
      retry_attempt := retry_attempt }
  if insertOk then (true, [row]) else (false, [])

/-- The state `OpenMeteoExtractor.__init__` stores: every constructor
argument is kept unchanged (`timezone` defaults to "GMT",
`hourly_variables` to `None`, `forecast_days` to 7 at the call sites). -/
structure OpenMeteoExtractor where
  latitude : Rat
  longitude : Rat
  location_name : String
  output_dir : String
  timezone : String
  hourly_variables : Option (List String)
  forecast_days : Nat
deriving DecidableEq, Repr

/-- The five-field query dict returned by
`OpenMeteoExtractor._build_api_params`. -/
structure ApiParams where
  latitude : Rat
  longitude : Rat
  timezone : String
  hourly : Option (List String)
  forecast_days : Nat
deriving DecidableEq, Repr

/-- Embedding of `OpenMeteoExtractor._build_api_params`: the stored fields
are passed through unchanged; in particular `hourly` is exactly the stored
`hourly_variables`, with no default substituted. -/
def OpenMeteoExtractor.build_api_params (e : OpenMeteoExtractor) : ApiParams :=
  { latitude := e.latitude, longitude := e.longitude, timezone := e.timezone,
    hourly := e.hourly_variables, forecast_days := e.forecast_days }

/-- Number of instants of `pd.date_range(start, stop, freq=interval,
inclusive="left")`: the instants `start + k * interval` strictly below
`stop`, that is `⌈(stop - start) / interval⌉` of them. -/
def time_range_len (start stop interval : Nat) : Nat :=
  (stop - start + interval - 1) / interval

/-- Embedding of the `pd.date_range(..., inclusive="left")` call of
`OpenMeteoExtractor._parse_response`: the gap-free sequence of Unix instants
from the declared start, stepping by the declared interval, up to but
excluding the declared end. -/
def time_range (start stop interval : Nat) : List Nat :=
  (List.range (time_range_len start stop interval)).map (fun k => start + k * interval)

/-- The hourly block of an Open-Meteo SDK response: `Time()`, `TimeEnd()`
and `Interval()` in Unix seconds, and one float series per variable
(the field `series` models the `Variables(i).ValuesAsNumpy()` accessors),
numeric values modelled as rationals. -/
structure HourlyBlock where
  time_start : Nat
  time_end : Nat
  interval : Nat
  series : List (List Rat)
deriving DecidableEq, Repr

/-- An Open-Meteo SDK response object, restricted to the accessors
`_parse_response` reads. `TimezoneAbbreviation()` returns a byte-string;
the field carries its decoded text, wrapped back into `PyVal.bytes` where
the byte value itself is passed around. -/
structure ApiResponse where
  timezone_abbreviation : String
  utc_offset_seconds : Int
  elevation : Rat
  hourly : HourlyBlock
deriving DecidableEq, Repr

/-- The variable loop of `_parse_response`: for each response series `i` it
writes key `hourly_variables[i]`. With `hourly_variables = None` the
subscript raises `TypeError` as soon as the loop body runs; with a list
shorter than the series count it raises `IndexError`; otherwise series `i`
is paired with the `i`-th requested name (`List.zip` pairs positionally and
stops at the shorter list, here the series list). -/
def parse_variables (names : Option (List String)) (values : List (List Rat)) :
    Except PyExc (List (String × List Rat)) :=
  match names with
  | Option.none =>
      if values.isEmpty then .ok []
      else .error (.typeError "NoneType object is not subscriptable")
  | some ns =>
      if values.length ≤ ns.length then .ok (ns.zip values)
      else .error (.indexError "list index out of range")

/-- The parsed-response dict built by `_parse_response`: the request params
minus the popped "hourly" key, the response metadata, the generated hourly
time axis, and one aligned series per requested variable.
`timezone_abbreviation` is still the raw byte-string here; it is decoded
later by `extract_forecast_data`. -/
structure ParsedResponse where
  latitude : Rat
  longitude : Rat
  timezone : String
  forecast_days : Nat
  timezone_abbreviation : PyVal
  utc_offset_seconds : Int
  elevation : Rat
  hourly_time : List Nat
  hourly_values : List (String × List Rat)

/-- Embedding of `OpenMeteoExtractor._parse_response`. -/
def OpenMeteoExtractor.parse_response (e : OpenMeteoExtractor) (r : ApiResponse) :
    Except PyExc ParsedResponse := do
  let vars ← parse_variables e.hourly_variables r.hourly.series
  .ok { latitude := e.latitude, longitude := e.longitude, timezone := e.timezone,
        forecast_days := e.forecast_days,
        timezone_abbreviation := PyVal.bytes r.timezone_abbreviation,
        utc_offset_seconds := r.utc_offset_seconds, elevation := r.elevation,
        hourly_time := time_range r.hourly.time_start r.hourly.time_end r.hourly.interval,
        hourly_values := vars }

/-- Outcome of the one network call `self.client.weather_api(URL, params)`:
either the client raised (a transport failure is
`PyExc.openMeteoRequestsError`) or it returned a list of responses. -/
inductive FetchOutcome : Type where
  | raised (e : PyExc)
  | responses (rs : List ApiResponse)

/-- The byte-decoding step of `extract_forecast_data`: a byte-string becomes
its decoded text, anything else is left alone. -/
def decode_if_bytes : PyVal → PyVal
  | .bytes b => .str b
  | v => v

/-- Embedding of `OpenMeteoExtractor.extract_forecast_data`: an empty
response list raises `ValueError("API returned empty response.")`; otherwise
the first response is parsed (the parsed dict always carries an "hourly"
key, so the source's missing-hourly `ValueError` branch is unreachable) and
its byte-encoded timezone abbreviation is decoded. Every `except` branch of
the source logs and then re-raises the exception unchanged, so a raised
exception comes back as `.error` with the original exception value. -/
def OpenMeteoExtractor.extract_forecast_data (e : OpenMeteoExtractor)
    (outcome : FetchOutcome) : Except PyExc ParsedResponse :=
  match outcome with
  | .raised exc => .error exc
  | .responses [] => .error (.valueError "API returned empty response.")
  | .responses (r :: _) =>
    match e.parse_response r with
    | .error exc => .error exc
    | .ok parsed =>
      .ok { parsed with
            timezone_abbreviation := decode_if_bytes parsed.timezone_abbreviation }

/-- One call to `DatabaseErrorLogger._log_api_error` as issued by
`ExtractionOrchestrator._handle_error`: the arguments the Error Recorder
receives for one failed extraction attempt. -/
structure RecordCall where
  error_type : String
  error_message : String
  latitude : Rat
  longitude : Rat
  retry_attempt : Nat
  request_params : ApiParams
deriving DecidableEq, Repr

/-- The result dict `ExtractionOrchestrator.execute_extraction` returns. On
the failure path the source returns `success: False`, the location, and
`str(e)`. -/
structure OrchestratorResult where
  success : Bool
  location : String
  error : Option String
deriving DecidableEq, Repr

/-- Embedding of `ExtractionOrchestrator._handle_error`: log the failure,
then, only when an error logger is configured, issue exactly one record call
carrying the exception's type name, its message, the extractor's
coordinates, the retry attempt, and the request params. -/
def handle_error (ext : OpenMeteoExtractor) (has_error_logger : Bool)
    (e : PyExc) (retry_attempt : Nat) : List RecordCall :=
  if has_error_logger then
    [{ error_type := e.typeName, error_message := e.message,
       latitude := ext.latitude, longitude := ext.longitude,
       retry_attempt := retry_attempt, request_params := ext.build_api_params }]
  else []

/-- Embedding of `ExtractionOrchestrator.execute_extraction`. Inputs beyond
the extractor: whether an error logger is configured, the outcome of the
network call, the boolean verdict of `load_to_bronze`, and the retry
attempt. The whole body sits in a `try` whose `except Exception` clause
calls `_handle_error` and then RETURNS a failure dict, so the function
never re-raises: the first component is always `.ok`. On the success path
the source calls `self._logger(...)`; a `logging.Logger` object is not
callable, so that line raises `TypeError`, which the same `except` clause
catches. A `False` from `load_to_bronze` is turned into
`Exception("load_to_bronze returned False")` and caught likewise. -/
def execute_extraction (ext : OpenMeteoExtractor) (has_error_logger : Bool)
    (outcome : FetchOutcome) (loadOk : Bool) (retry_attempt : Nat) :
    Except PyExc OrchestratorResult × List RecordCall :=
  match ext.extract_forecast_data outcome with
  | .error e =>
      (.ok { success := false, location := ext.location_name, error := some e.message },
       handle_error ext has_error_logger e retry_attempt)
  | .ok _ =>
      let e := if loadOk then PyExc.typeError "'Logger' object is not callable"
               else PyExc.exception "load_to_bronze returned False"
      (.ok { success := false, location := ext.location_name, error := some e.message },
       handle_error ext has_error_logger e retry_attempt)

/-- The report dict returned by `validate_silver_data` when every check
passes. -/
structure ValidationReport where
  status : String
  bronze_count : Nat
  silver_count : Nat
  null_times : Nat
  null_temps : Nat
  null_codes : Nat
  duplicates : Nat
deriving DecidableEq, Repr

/-- Embedding of the `validate_silver_data` task of silver_layer_dag.py.
Inputs are the upstream status and the results of the four count queries
over the last-hour window: bronze rows, new silver rows, null counts for
observation_time / temperature_2m / weather_code, and the number of
duplicated (observation_time, location_name) groups. The checks run in
source order; each failing check raises `ValueError`. Note the source
raises on `silver_count == 0` and never raises on null temperatures or null
weather codes (those are only logged). -/
def validate_silver_data (transform_status : String)
    (bronze_count silver_count null_times null_temps null_codes duplicate_count : Nat) :
    Except PyExc ValidationReport :=
  if transform_status ≠ "completed" then
    .error (.valueError "Cannot validate - transformation did not complete")
  else if silver_count = 0 then
    .error (.valueError "No records created in silver layer!")
  else if 0 < null_times then
    .error (.valueError "Found null observation times!")
  else if 0 < duplicate_count then
    .error (.valueError "Found duplicate records.")
  else
    .ok { status := "success", bronze_count := bronze_count,
          silver_count := silver_count, null_times := null_times,
          null_temps := null_temps, null_codes := null_codes,
          duplicates := duplicate_count }

/-- One row of `silver.weather_observations`, reduced to its key columns and
an opaque list of measurement values. -/
structure SilverRow where
  location_name : String
  observation_hour : Nat
  measurements : List Rat
deriving DecidableEq, Repr

/-- The (location, observation-hour) key of a silver row. -/
def SilverRow.key (r : SilverRow) : String × Nat :=
  (r.location_name, r.observation_hour)

/-- Whether the silver table already holds a row with key `k`. -/
def silver_has_key (s : List SilverRow) (k : String × Nat) : Bool :=
  s.any (fun x => decide (x.key = k))

/-- Modelled from the spec: the per-row insert path of the bronze-to-silver
transformation. The SQL script it lives in
(on_premise/sql/02_silver/silver_layer.sql, executed by
`transform_bronze_to_silver` and `backfill_bronze_to_silver`) and the
`SQLExecutor.execute_backfill` method are not among the Python sources; the
spec requires "an upsert (insert-or-update) keyed on that pair, not a blind
append", so a row whose (location, observation-hour) key is already present
replaces the existing row and any other row is appended. -/
def silver_upsert (s : List SilverRow) (r : SilverRow) : List SilverRow :=
  if silver_has_key s r.key then s.map (fun x => if x.key = r.key then r else x)
  else s ++ [r]

/-- Modelled from the spec: one run of the Silver Transformer over a bounded
window. `batch` is the list of observation rows derived from the bronze rows
of the window — a deterministic function of the window's bronze contents, so
two runs over the same window derive the same batch — and each derived row
is upserted into the silver table in order. -/
def silver_transform (batch : List SilverRow) (silver : List SilverRow) : List SilverRow :=
  batch.foldl silver_upsert silver

/-- The Bangkok extractor of the repository's manual test: constructed with
`hourly_variables=["temperature_2m"]`. -/
def bangkok_extractor : OpenMeteoExtractor :=
  { latitude := 13.754, longitude := 100.5014, location_name := "Bangkok",
    output_dir := ".", timezone := "Asia/Bangkok",
    hourly_variables := some ["temperature_2m"], forecast_days := 7 }

/-- The same extractor constructed without an `hourly_variables` argument, so
the attribute holds `None`. -/
def bangkok_no_vars : OpenMeteoExtractor :=
  { latitude := 13.754, longitude := 100.5014, location_name := "Bangkok",
    output_dir := ".", timezone := "Asia/Bangkok",
    hourly_variables := Option.none, forecast_days := 7 }

/-- A small concrete API response: two declared hours (a half-open range of
7200 seconds at a 3600-second interval) and one temperature series. -/
def sample_response : ApiResponse :=
  { timezone_abbreviation := "ICT", utc_offset_seconds := 25200, elevation := 2,
    hourly := { time_start := 0, time_end := 7200, interval := 3600,
                series := [[20, 21]] } }

/-- The parsed response `extract_forecast_data` produces for
`bangkok_extractor` on `sample_response`: the two-instant time axis, the one
aligned series, and the timezone abbreviation already decoded to text. -/
def sample_parsed : ParsedResponse :=
  { latitude := 13.754, longitude := 100.5014, timezone := "Asia/Bangkok",
    forecast_days := 7, timezone_abbreviation := .str "ICT",
    utc_offset_seconds := 25200, elevation := 2,
    hourly_time := [0, 3600],
    hourly_values := [("temperature_2m", [20, 21])] }

/-- An empty warehouse connection with no open transaction. -/
def sample_conn : PgConn := { committed := [], pending := [] }

/-- A well-formed data package for `load_to_bronze`, holding every key the
insert reads. -/
def sample_payload : PyVal :=
  .dict (.cons "location_name" (.str "Bangkok")
    (.cons "latitude" (.num 13.754)
      (.cons "longitude" (.num 100.5014)
        (.cons "timezone" (.str "Asia/Bangkok")
          (.cons "metadata"
            (.dict (.cons "api_retrieval_time" (.datetime ⟨2026, 1, 1, 6, 0, 0⟩)
              (.cons "response_time_ms" (.num 120) .nil)))
            (.cons "api_response"
              (.dict (.cons "temperature_2m" (.list (.cons (.num 20) (.cons (.num 21) .nil))) .nil))
              .nil))))))

/-- A fixed insertion timestamp for the loader's `created_at` column. -/
def sample_now : PyDateTime := ⟨2026, 1, 1, 6, 0, 1⟩

/-- A concrete derived observation batch for the silver transform. -/
def sample_batch : List SilverRow :=
  [⟨"Bangkok", 0, [20]⟩, ⟨"Bangkok", 1, [21]⟩, ⟨"Tokyo", 0, [5]⟩]

/-- A concrete silver table already holding one of the batch keys. -/
def sample_silver : List SilverRow := [⟨"Bangkok", 0, [19]⟩, ⟨"Paris", 0, [11]⟩]

theorem except_bind_ok {α β : Type} (a : α) (f : α → Except PyExc β) :
    (Except.ok a >>= f) = f a := rfl

theorem except_bind_error {α β : Type} (e : PyExc) (f : α → Except PyExc β) :
    ((Except.error e : Except PyExc α) >>= f) = Except.error e := rfl

mutual

theorem is_clean_clean_format : ∀ v : PyVal, (clean_format_in_dict v).is_clean = true
  | .str _ => rfl
  | .bytes _ => rfl
  | .datetime _ => rfl
  | .num _ => rfl
  | .bool _ => rfl
  | .none => rfl
  | .dict es => by
      simpa [clean_format_in_dict, PyVal.is_clean] using is_clean_clean_format_entries es
  | .list l => by
      simpa [clean_format_in_dict, PyVal.is_clean] using is_clean_clean_format_items l

theorem is_clean_clean_format_entries : ∀ es : PyEntries, (clean_format_entries es).is_clean = true
  | .nil => rfl
  | .cons k v rest => by
      simp [clean_format_entries, PyEntries.is_clean, is_clean_clean_format v,
        is_clean_clean_format_entries rest]

theorem is_clean_clean_format_items : ∀ l : PyList, (clean_format_items l).is_clean = true
  | .nil => rfl
  | .cons v rest => by
      simp [clean_format_items, PyList.is_clean, is_clean_clean_format v,
        is_clean_clean_format_items rest]

end

mutual

theorem clean_format_idem : ∀ v : PyVal,
    clean_format_in_dict (clean_format_in_dict v) = clean_format_in_dict v
  | .str _ => rfl
  | .bytes _ => rfl
  | .datetime _ => rfl
  | .num _ => rfl
  | .bool _ => rfl
  | .none => rfl
  | .dict es => by
      simp [clean_format_in_dict, clean_format_idem_entries es]
  | .list l => by
      simp [clean_format_in_dict, clean_format_idem_items l]

theorem clean_format_idem_entries : ∀ es : PyEntries,
    clean_format_entries (clean_format_entries es) = clean_format_entries es
  | .nil => rfl
  | .cons k v rest => by
      simp [clean_format_entries, clean_format_idem v, clean_format_idem_entries rest]

theorem clean_format_idem_items : ∀ l : PyList,
    clean_format_items (clean_format_items l) = clean_format_items l
  | .nil => rfl
  | .cons v rest => by
      simp [clean_format_items, clean_format_idem v, clean_format_idem_items rest]

end

theorem keys_clean_format_entries : ∀ es : PyEntries,
    (clean_format_entries es).keys = es.keys
  | .nil => rfl
  | .cons k v rest => by
      simp [clean_format_entries, PyEntries.keys, keys_clean_format_entries rest]

theorem get_clean_format_items : ∀ (l : PyList) (i : Nat),
    (clean_format_items l).get? i = (l.get? i).map clean_format_in_dict
  | .nil, _ => rfl
  | .cons v rest, 0 => rfl
  | .cons v rest, i + 1 => by
      simp [clean_format_items, PyList.get?, get_clean_format_items rest i]

/-- C6: the Bronze Loader's recursive normalization leaves no byte-string and
no datetime anywhere in its output, replacing byte-strings by their decoded
text and datetimes by their ISO string, uniformly at every nesting depth and
in every container; dict keys, list order and all other scalar values are
preserved. -/
theorem clean_format_normalizes :
    (∀ v : PyVal, (clean_format_in_dict v).is_clean = true) ∧
    (∀ es : PyEntries, clean_format_in_dict (.dict es) = .dict (clean_format_entries es) ∧
      (clean_format_entries es).keys = es.keys) ∧
    (∀ (l : PyList) (i : Nat), clean_format_in_dict (.list l) = .list (clean_format_items l) ∧
      (clean_format_items l).get? i = (l.get? i).map clean_format_in_dict) ∧
    (∀ b, clean_format_in_dict (.bytes b) = .str b) ∧
    (∀ d, clean_format_in_dict (.datetime d) = .str d.isoformat) ∧
    (∀ s, clean_format_in_dict (.str s) = .str s) ∧
    (∀ q, clean_format_in_dict (.num q) = .num q) ∧
    (∀ b, clean_format_in_dict (.bool b) = .bool b) ∧
    clean_format_in_dict .none = .none :=
  ⟨is_clean_clean_format,
   fun es => ⟨rfl, keys_clean_format_entries es⟩,
   fun l i => ⟨rfl, get_clean_format_items l i⟩,
   fun _ => rfl, fun _ => rfl, fun _ => rfl, fun _ => rfl, fun _ => rfl, rfl⟩

/-- C10: the recursive normalization is idempotent — applied to its own
output it returns that output unchanged, for every nested structure. -/
theorem clean_format_idempotent :
    ∀ v : PyVal, clean_format_in_dict (clean_format_in_dict v) = clean_format_in_dict v :=
  clean_format_idem

theorem length_string_mk (l : List Char) : (String.mk l).length = l.length := rfl

theorem toList_string_mk (l : List Char) : (String.mk l).toList = l := rfl

theorem length_toList (m : String) : m.toList.length = m.length := rfl

/-- C3: when the network call succeeds but the response list is empty, the
extractor raises `ValueError("API returned empty response.")`, which the
spec's taxonomy classifies as a `ValidationError` and never as a
`RequestError`, so an empty-content failure is always distinguishable from a
transport failure. -/
theorem empty_response_is_validation_error :
    ∀ e : OpenMeteoExtractor,
      e.extract_forecast_data (.responses []) =
        .error (.valueError "API returned empty response.") ∧
      ∀ exc : PyExc, e.extract_forecast_data (.responses []) = .error exc →
        spec_error_class exc = "ValidationError" ∧ spec_error_class exc ≠ "RequestError" := by
  intro e
  refine ⟨rfl, fun exc h => ?_⟩
  have h2 : (Except.error (PyExc.valueError "API returned empty response.") :
      Except PyExc ParsedResponse) = .error exc := h
  injection h2 with h3
  subst h3
  exact ⟨rfl, by decide⟩

theorem empty_response_is_validation_error_witness :
    spec_error_class (.valueError "API returned empty response.") = "ValidationError" ∧
    spec_error_class (.valueError "API returned empty response.") ≠ "RequestError" :=
  (empty_response_is_validation_error bangkok_extractor).2
    (.valueError "API returned empty response.") rfl

/-- C7 fails on the code: an extractor constructed without `hourly_variables`
stores `None`, the built API query's hourly field is `None` and not the
one-element temperature list, and fetching a response that carries an hourly
series then fails with a `TypeError` when the parser subscripts the `None`
list. -/
theorem no_temperature_default_counterexample :
    bangkok_no_vars.build_api_params.hourly ≠ some ["temperature_2m"] ∧
    bangkok_no_vars.build_api_params.hourly = Option.none ∧
    bangkok_no_vars.extract_forecast_data (.responses [sample_response]) =
      .error (.typeError "NoneType object is not subscriptable") :=
  ⟨by decide, rfl, rfl⟩

/-- C7 amended: when `hourly_variables` is not supplied it is stored as
`None` unchanged — no temperature default is substituted — so the API query
is built with a `None` hourly field, and a fetch whose response contains at
least one hourly series fails with a `TypeError` on that account. -/
theorem no_default_hourly_variables :
    ∀ (lat lon : Rat) (name odir tz : String) (fd : Nat) (r : ApiResponse)
      (rest : List ApiResponse),
      (OpenMeteoExtractor.mk lat lon name odir tz Option.none fd).build_api_params.hourly =
        Option.none ∧
      (r.hourly.series ≠ [] →
        (OpenMeteoExtractor.mk lat lon name odir tz Option.none fd).extract_forecast_data
            (.responses (r :: rest)) =
          .error (.typeError "NoneType object is not subscriptable")) := by
  intro lat lon name odir tz fd r rest
  refine ⟨rfl, fun h => ?_⟩
  rcases hs : r.hourly.series with _ | ⟨a, as⟩
  · exact absurd hs h
  · simp [OpenMeteoExtractor.extract_forecast_data, OpenMeteoExtractor.parse_response,
      parse_variables, hs, except_bind_error]

theorem no_default_hourly_variables_witness :
    bangkok_no_vars.extract_forecast_data (.responses [sample_response]) =
      .error (.typeError "NoneType object is not subscriptable") :=
  (no_default_hourly_variables 13.754 100.5014 "Bangkok" "." "Asia/Bangkok" 7
    sample_response []).2 (by decide)

/-- C8 fails on the code: for a message of 1001 characters the stored
message is the first 1000 characters plus the three-character ellipsis
marker — 1003 characters, which exceeds the 1000-character cap. -/
theorem truncate_cap_counterexample :
    (String.mk (List.replicate 1001 'a')).length = 1001 ∧
    ¬ ((truncate_message (String.mk (List.replicate 1001 'a'))).length ≤ 1000) := by
  have hlen : (String.mk (List.replicate 1001 'a')).length = 1001 := by
    rw [length_string_mk, List.length_replicate]
  refine ⟨hlen, ?_⟩
  have h2 : (truncate_message (String.mk (List.replicate 1001 'a'))).length = 1003 := by
    rw [truncate_message, if_neg (by omega), String.length_append, length_string_mk,
      toList_string_mk, List.take_replicate, List.length_replicate]
    rfl
  omega

/-- C8 amended: a message of at most 1000 characters is stored verbatim; a
longer message is stored as its first 1000 characters followed by the
ellipsis marker, exactly 1003 characters, so the stored message length is
bounded by the cap plus the three-character marker rather than by the cap
itself; the Error Recorder always stores exactly the truncation of the
message it receives. -/
theorem truncate_message_spec :
    ∀ m : String,
      (m.length ≤ 1000 → truncate_message m = m) ∧
      (1000 < m.length →
        truncate_message m = String.mk (m.toList.take 1000) ++ "..." ∧
        (truncate_message m).length = 1003) ∧
      (truncate_message m).length ≤ 1003 ∧
      ∀ (endpoint etype : String) (lat lon : Rat) (st : Option Int)
        (rp : Option PyVal) (ra : Nat) (ok : Bool) (row : ApiErrorRow),
        row ∈ (log_api_error endpoint etype m lat lon st rp ra ok).2 →
        row.error_message = truncate_message m := by
  intro m
  have hrow : ∀ (endpoint etype : String) (lat lon : Rat) (st : Option Int)
      (rp : Option PyVal) (ra : Nat) (ok : Bool) (row : ApiErrorRow),
      row ∈ (log_api_error endpoint etype m lat lon st rp ra ok).2 →
      row.error_message = truncate_message m := by
    intro endpoint etype lat lon st rp ra ok row hmem
    cases ok with
    | false => simp [log_api_error] at hmem
    | true =>
        simp [log_api_error] at hmem
        subst hmem
        rfl
  by_cases h : m.length ≤ 1000
  · have he : truncate_message m = m := by rw [truncate_message, if_pos h]
    exact ⟨fun _ => he, fun h2 => absurd h (by omega), by rw [he]; omega, hrow⟩
  · push_neg at h
    have he : truncate_message m = String.mk (m.toList.take 1000) ++ "..." := by
      rw [truncate_message, if_neg (by omega)]
    have hl : (truncate_message m).length = 1003 := by
      rw [he, String.length_append, length_string_mk, List.length_take, length_toList,
        min_eq_left (by omega)]
      rfl
    exact ⟨fun h2 => absurd h2 (by omega), fun _ => ⟨he, hl⟩, by omega, hrow⟩

theorem truncate_message_spec_witness :
    truncate_message "abc" = "abc" ∧
    (truncate_message (String.mk (List.replicate 1001 'a'))).length = 1003 :=
  ⟨(truncate_message_spec "abc").1 (by decide),
   ((truncate_message_spec (String.mk (List.replicate 1001 'a'))).2.1
      (by rw [length_string_mk, List.length_replicate]; norm_num)).2⟩

/-- C9 fails on the code: with a completed transform and a non-empty bronze
window, zero new silver rows makes `validate_silver_data` raise
`ValueError` — a hard failure, not a warning. -/
theorem zero_silver_rows_counterexample :
    validate_silver_data "completed" 5 0 0 0 0 0 =
      Except.error (PyExc.valueError "No records created in silver layer!") ∧
    (validate_silver_data "completed" 5 0 0 0 0 0).isOk = false :=
  ⟨rfl, rfl⟩

/-- C9 amended: with a completed upstream transform, the validation pass
succeeds exactly when at least one new silver row was produced, no null
observation time was found and no (observation_time, location_name) group is
duplicated; zero new silver rows is therefore a hard failure, while null
temperatures and null weather codes never affect the verdict. -/
theorem validate_silver_data_success_iff :
    ∀ bronze silver nt ntp nc dup : Nat,
      ((validate_silver_data "completed" bronze silver nt ntp nc dup).isOk = true ↔
        (silver ≠ 0 ∧ nt = 0 ∧ dup = 0)) ∧
      (validate_silver_data "completed" bronze silver nt ntp nc dup).isOk =
        (validate_silver_data "completed" bronze silver nt 0 0 dup).isOk := by
  intro b s nt ntp nc dup
  by_cases hs : s = 0
  · simp [validate_silver_data, hs, Except.isOk, Except.toBool]
  · by_cases hnt : 0 < nt
    · have hnt2 : ¬ nt = 0 := by omega
      simp [validate_silver_data, hs, hnt, hnt2, Except.isOk, Except.toBool]
    · by_cases hd : 0 < dup
      · have hd2 : ¬ dup = 0 := by omega
        simp [validate_silver_data, hs, hnt, hd, hd2, Except.isOk, Except.toBool]
      · have hnt2 : nt = 0 := by omega
        have hd2 : dup = 0 := by omega
        simp [validate_silver_data, hs, hnt, hd, hnt2, hd2, Except.isOk, Except.toBool]

theorem validate_silver_data_success_iff_witness :
    (validate_silver_data "completed" 5 10 0 3 2 0).isOk = true :=
  ((validate_silver_data_success_iff 5 10 0 3 2 0).1).mpr ⟨by decide, rfl, rfl⟩

theorem load_to_bronze_try_spec (conn : PgConn) (data : PyVal) (now : PyDateTime)
    (execOk : Bool) :
    (∃ exc, load_to_bronze_try conn data now execOk = .error exc) ∨
    (execOk = true ∧ ∃ row, load_to_bronze_try conn data now execOk =
      .ok (PgConn.commit { conn with pending := conn.pending ++ [row] })) := by
  rcases h1 : dictGet data "location_name" with e1 | loc
  · exact .inl ⟨e1, by simp [load_to_bronze_try, h1, except_bind_error]⟩
  rcases h2 : dictGet data "latitude" with e2 | lat
  · exact .inl ⟨e2, by simp [load_to_bronze_try, h1, h2, except_bind_error, except_bind_ok]⟩
  rcases h3 : dictGet data "longitude" with e3 | lon
  · exact .inl ⟨e3, by
      simp [load_to_bronze_try, h1, h2, h3, except_bind_error, except_bind_ok]⟩
  rcases h4 : dictGet data "timezone" with e4 | tz
  · exact .inl ⟨e4, by
      simp [load_to_bronze_try, h1, h2, h3, h4, except_bind_error, except_bind_ok]⟩
  rcases h5 : dictGet (clean_format_in_dict data) "metadata" with e5 | md
  · exact .inl ⟨e5, by
      simp [load_to_bronze_try, h1, h2, h3, h4, h5, except_bind_error, except_bind_ok]⟩
  rcases h6 : dictGet md "api_retrieval_time" with e6 | art
  · exact .inl ⟨e6, by
      simp [load_to_bronze_try, h1, h2, h3, h4, h5, h6, except_bind_error, except_bind_ok]⟩
  rcases h7 : dictGet md "response_time_ms" with e7 | rtm
  · exact .inl ⟨e7, by
      simp [load_to_bronze_try, h1, h2, h3, h4, h5, h6, h7, except_bind_error,
        except_bind_ok]⟩
  rcases h8 : dictGet (clean_format_in_dict data) "api_response" with e8 | api
  · exact .inl ⟨e8, by
      simp [load_to_bronze_try, h1, h2, h3, h4, h5, h6, h7, h8, except_bind_error,
        except_bind_ok]⟩
  cases execOk with
  | false =>
      exact .inl ⟨.exception "cursor.execute raised", by
        simp [load_to_bronze_try, h1, h2, h3, h4, h5, h6, h7, h8, except_bind_error,
          except_bind_ok]⟩
  | true =>
      refine .inr ⟨rfl, BronzeRow.mk loc lat lon tz art rtm now api, ?_⟩
      simp [load_to_bronze_try, h1, h2, h3, h4, h5, h6, h7, h8, except_bind_error,
        except_bind_ok, pure, Except.pure]

/-- C5: the bronze insert is atomic — when `load_to_bronze` returns `true`
the transaction has committed exactly one new row on top of the prior
contents; when it returns `false` the transaction has rolled back, no new
row is visible in `bronze.weather_raw` and no partial row stays pending; a
failed database write always yields `false`; and every exception inside the
insert produces the `(false, rollback)` return instead of propagating. -/
theorem load_to_bronze_atomic :
    ∀ (conn : PgConn) (data : PyVal) (now : PyDateTime) (execOk : Bool),
      (∀ conn2, load_to_bronze conn data now execOk = (true, conn2) →
        ∃ row, conn2 = PgConn.commit { conn with pending := conn.pending ++ [row] } ∧
          conn2.committed = conn.committed ++ conn.pending ++ [row] ∧ conn2.pending = []) ∧
      (∀ conn2, load_to_bronze conn data now execOk = (false, conn2) →
        conn2 = conn.rollback ∧ conn2.committed = conn.committed ∧ conn2.pending = []) ∧
      (execOk = false → (load_to_bronze conn data now execOk).1 = false) ∧
      (∀ exc, load_to_bronze_try conn data now execOk = .error exc →
        load_to_bronze conn data now execOk = (false, conn.rollback)) := by
  intro conn data now execOk
  rcases load_to_bronze_try_spec conn data now execOk with ⟨exc, herr⟩ | ⟨hok, row, hrow⟩
  · have hload : load_to_bronze conn data now execOk = (false, conn.rollback) := by
      simp [load_to_bronze, herr]
    refine ⟨?_, ?_, ?_, ?_⟩
    · intro conn2 h
      rw [hload] at h
      rw [Prod.ext_iff] at h
      simp at h
    · intro conn2 h
      rw [hload] at h
      rw [Prod.ext_iff] at h
      obtain ⟨-, h2⟩ := h
      subst h2
      exact ⟨rfl, rfl, rfl⟩
    · intro _
      rw [hload]
    · intro exc2 _
      exact hload
  · have hload : load_to_bronze conn data now execOk =
        (true, PgConn.commit { conn with pending := conn.pending ++ [row] }) := by
      simp [load_to_bronze, hrow]
    refine ⟨?_, ?_, ?_, ?_⟩
    · intro conn2 h
      rw [hload] at h
      rw [Prod.ext_iff] at h
      obtain ⟨-, h2⟩ := h
      subst h2
      exact ⟨row, rfl, by simp [PgConn.commit], rfl⟩
    · intro conn2 h
      rw [hload] at h
      rw [Prod.ext_iff] at h
      simp at h
    · intro hfalse
      rw [hok] at hfalse
      exact absurd hfalse (by simp)
    · intro exc h
      rw [hrow] at h
      exact absurd h (by simp)

theorem load_to_bronze_atomic_witness :
    (load_to_bronze sample_conn sample_payload sample_now false).1 = false ∧
    load_to_bronze sample_conn sample_payload sample_now false =
      (false, sample_conn.rollback) :=
  ⟨(load_to_bronze_atomic sample_conn sample_payload sample_now false).2.2.1 rfl,
   (load_to_bronze_atomic sample_conn sample_payload sample_now false).2.2.2
     (.exception "cursor.execute raised") rfl⟩

/-- C4 fails on the code: at a concrete transport failure the orchestrator
returns a non-raising failure dict — the original exception does not
propagate out of the extraction step — and its single record call carries
error_type "OpenMeteoRequestsError", the exception's Python type name, not
"RequestError". -/
theorem transport_failure_counterexample :
    (execute_extraction bangkok_extractor true
        (.raised (.openMeteoRequestsError "connection timed out")) false 0).1 =
      .ok { success := false, location := "Bangkok", error := some "connection timed out" } ∧
    (execute_extraction bangkok_extractor true
        (.raised (.openMeteoRequestsError "connection timed out")) false 0).1 ≠
      .error (.openMeteoRequestsError "connection timed out") ∧
    ((execute_extraction bangkok_extractor true
        (.raised (.openMeteoRequestsError "connection timed out")) false 0).2.map
      (fun r => r.error_type)) = ["OpenMeteoRequestsError"] ∧
    "OpenMeteoRequestsError" ≠ "RequestError" :=
  ⟨rfl, fun h => Except.noConfusion h, rfl, by decide⟩

/-- C4 amended: for every extraction failure the orchestrator catches the
exception instead of re-raising it — `execute_extraction` always returns,
with success = false and the exception's message — and, when an error logger
is configured, issues exactly one record call whose error_type is the
exception's Python type name ("OpenMeteoRequestsError" for a transport
failure, the code's spelling of the spec's RequestError class); no record
call is made when no logger is configured. -/
theorem execute_extraction_failure_path :
    ∀ (ext : OpenMeteoExtractor) (hl : Bool) (outcome : FetchOutcome) (loadOk : Bool)
      (ra : Nat) (exc : PyExc),
      ext.extract_forecast_data outcome = .error exc →
      execute_extraction ext hl outcome loadOk ra =
        (.ok { success := false, location := ext.location_name, error := some exc.message },
         if hl then
           [{ error_type := exc.typeName, error_message := exc.message,
              latitude := ext.latitude, longitude := ext.longitude,
              retry_attempt := ra, request_params := ext.build_api_params }]
         else []) := by
  intro ext hl outcome loadOk ra exc h
  simp [execute_extraction, h, handle_error]

theorem execute_extraction_failure_path_witness :
    execute_extraction bangkok_extractor true
        (.raised (.openMeteoRequestsError "connection timed out")) false 0 =
      (.ok { success := false, location := "Bangkok", error := some "connection timed out" },
       [{ error_type := "OpenMeteoRequestsError", error_message := "connection timed out",
          latitude := 13.754, longitude := 100.5014, retry_attempt := 0,
          request_params := bangkok_extractor.build_api_params }]) :=
  execute_extraction_failure_path bangkok_extractor true
    (.raised (.openMeteoRequestsError "connection timed out")) false 0
    (.openMeteoRequestsError "connection timed out") rfl

theorem ceil_div_of_dvd (d i : Nat) (hi : 0 < i) (hd : i ∣ d) : (d + i - 1) / i = d / i := by
  obtain ⟨q, rfl⟩ := hd
  have h1 : i * q + i - 1 = (i - 1) + i * q := by omega
  rw [h1, Nat.add_mul_div_left (i - 1) q hi, Nat.div_eq_of_lt (Nat.sub_lt hi one_pos),
    Nat.mul_div_cancel_left q hi]
  omega

theorem time_range_mem (s e i : Nat) (hi : 0 < i) (hd : i ∣ (e - s)) (t : Nat) :
    t ∈ time_range s e i ↔ ∃ k, t = s + k * i ∧ t < e := by
  rw [time_range, time_range_len, ceil_div_of_dvd _ _ hi hd]
  simp only [List.mem_map, List.mem_range]
  constructor
  · rintro ⟨k, hk, rfl⟩
    refine ⟨k, rfl, ?_⟩
    have h2 := (Nat.lt_div_iff_mul_lt hd k).mp hk
    rw [mul_comm] at h2
    omega
  · rintro ⟨k, rfl, hlt⟩
    refine ⟨k, ?_, rfl⟩
    rw [Nat.lt_div_iff_mul_lt hd k, mul_comm]
    omega

/-- C2: on a successful fetch the parsed response's hourly time axis is the
half-open, gap-free grid declared by the response: its length equals
(endTime − startTime) / interval (for a valid hourly response the declared
interval divides the declared range), its instants are exactly those
reached from the declared start by whole interval steps that stay strictly
below the declared end, the start instant being included whenever the range
is non-empty and the end instant always excluded. -/
theorem parsed_time_axis :
    ∀ (ex : OpenMeteoExtractor) (r : ApiResponse) (rest : List ApiResponse)
      (parsed : ParsedResponse),
      0 < r.hourly.interval →
      r.hourly.interval ∣ (r.hourly.time_end - r.hourly.time_start) →
      ex.extract_forecast_data (.responses (r :: rest)) = .ok parsed →
      parsed.hourly_time.length =
        (r.hourly.time_end - r.hourly.time_start) / r.hourly.interval ∧
      (∀ t, t ∈ parsed.hourly_time ↔
        ∃ k, t = r.hourly.time_start + k * r.hourly.interval ∧ t < r.hourly.time_end) ∧
      ¬ r.hourly.time_end ∈ parsed.hourly_time ∧
      (r.hourly.time_start < r.hourly.time_end →
        r.hourly.time_start ∈ parsed.hourly_time) := by
  intro ex r rest parsed hi hd h
  have ht : parsed.hourly_time =
      time_range r.hourly.time_start r.hourly.time_end r.hourly.interval := by
    rcases hp : parse_variables ex.hourly_variables r.hourly.series with exc | vars
    · simp [OpenMeteoExtractor.extract_forecast_data, OpenMeteoExtractor.parse_response,
        hp, except_bind_error] at h
    · simp [OpenMeteoExtractor.extract_forecast_data, OpenMeteoExtractor.parse_response,
        hp, except_bind_ok] at h
      rw [← h]
  rw [ht]
  refine ⟨?_, fun t => time_range_mem _ _ _ hi hd t, ?_, ?_⟩
  · rw [time_range, List.length_map, List.length_range, time_range_len,
      ceil_div_of_dvd _ _ hi hd]
  · intro hmem
    obtain ⟨k, hk, hlt⟩ := (time_range_mem _ _ _ hi hd _).mp hmem
    exact absurd hlt (lt_irrefl _)
  · intro hse
    exact (time_range_mem _ _ _ hi hd _).mpr ⟨0, by simp, hse⟩

theorem parsed_time_axis_witness :
    sample_parsed.hourly_time.length = (7200 - 0) / 3600 ∧
    (0 : Nat) ∈ sample_parsed.hourly_time :=
  ⟨(parsed_time_axis bangkok_extractor sample_response [] sample_parsed
      (by norm_num [sample_response]) (by norm_num [sample_response]) rfl).1,
   (parsed_time_axis bangkok_extractor sample_response [] sample_parsed
      (by norm_num [sample_response]) (by norm_num [sample_response]) rfl).2.2.2
     (by norm_num [sample_response])⟩

theorem silver_has_key_iff (s : List SilverRow) (k : String × Nat) :
    silver_has_key s k = true ↔ k ∈ s.map SilverRow.key := by
  simp [silver_has_key, List.any_eq_true, List.mem_map]

theorem map_key_upsert (s : List SilverRow) (r : SilverRow) :
    (silver_upsert s r).map SilverRow.key =
      if silver_has_key s r.key then s.map SilverRow.key
      else s.map SilverRow.key ++ [r.key] := by
  unfold silver_upsert
  split_ifs with h
  · rw [List.map_map]
    apply List.map_congr_left
    intro x hx
    by_cases hk : x.key = r.key
    · simp only [Function.comp_apply, if_pos hk]
      exact hk.symm
    · simp only [Function.comp_apply, if_neg hk]
  · simp

theorem length_upsert (s : List SilverRow) (r : SilverRow) :
    (silver_upsert s r).length = if silver_has_key s r.key then s.length else s.length + 1 := by
  have h := congrArg List.length (map_key_upsert s r)
  simpa [List.length_map, apply_ite List.length, List.length_append] using h

theorem has_key_upsert (s : List SilverRow) (r : SilverRow) (k : String × Nat) :
    silver_has_key (silver_upsert s r) k = true ↔
      (silver_has_key s k = true ∨ k = r.key) := by
  rw [silver_has_key_iff, map_key_upsert]
  split_ifs with h
  · constructor
    · intro hm
      exact .inl ((silver_has_key_iff s k).mpr hm)
    · rintro (hk | rfl)
      · exact (silver_has_key_iff s k).mp hk
      · exact (silver_has_key_iff s r.key).mp h
  · rw [List.mem_append, List.mem_singleton, silver_has_key_iff]

theorem has_key_transform (batch s : List SilverRow) (k : String × Nat) :
    silver_has_key (silver_transform batch s) k = true ↔
      (silver_has_key s k = true ∨ ∃ r ∈ batch, r.key = k) := by
  induction batch generalizing s with
  | nil => simp [silver_transform]
  | cons r rest ih =>
      simp only [silver_transform, List.foldl_cons] at *
      rw [ih, has_key_upsert]
      constructor
      · rintro ((hk | rfl) | ⟨x, hx, rfl⟩)
        · exact .inl hk
        · exact .inr ⟨r, List.mem_cons_self r rest, rfl⟩
        · exact .inr ⟨x, List.mem_cons_of_mem r hx, rfl⟩
      · rintro (hk | ⟨x, hx, rfl⟩)
        · exact .inl (.inl hk)
        · rcases List.mem_cons.mp hx with rfl | hx2
          · exact .inl (.inr rfl)
          · exact .inr ⟨x, hx2, rfl⟩

theorem length_transform_of_present (batch : List SilverRow) :
    ∀ s : List SilverRow, (∀ r ∈ batch, silver_has_key s r.key = true) →
      (silver_transform batch s).length = s.length := by
  induction batch with
  | nil => intro s _; rfl
  | cons r rest ih =>
      intro s h
      have hr : silver_has_key s r.key = true := h r (List.mem_cons_self r rest)
      have hrest : ∀ x ∈ rest, silver_has_key (silver_upsert s r) x.key = true := by
        intro x hx
        exact (has_key_upsert s r x.key).mpr (.inl (h x (List.mem_cons_of_mem r hx)))
      have hlen : (silver_upsert s r).length = s.length := by
        rw [length_upsert, if_pos hr]
      simp only [silver_transform, List.foldl_cons]
      exact (ih (silver_upsert s r) hrest).trans hlen

theorem nodup_key_upsert (s : List SilverRow) (r : SilverRow)
    (h : (s.map SilverRow.key).Nodup) : ((silver_upsert s r).map SilverRow.key).Nodup := by
  rw [map_key_upsert]
  split_ifs with hk
  · exact h
  · rw [List.nodup_append]
    refine ⟨h, List.nodup_singleton _, ?_⟩
    intro x hx hx2
    rw [List.mem_singleton] at hx2
    subst hx2
    exact hk ((silver_has_key_iff s r.key).mpr hx)

theorem nodup_key_transform (batch : List SilverRow) :
    ∀ s : List SilverRow, (s.map SilverRow.key).Nodup →
      ((silver_transform batch s).map SilverRow.key).Nodup := by
  induction batch with
  | nil => exact fun s h => h
  | cons r rest ih =>
      intro s h
      simp only [silver_transform, List.foldl_cons]
      exact ih (silver_upsert s r) (nodup_key_upsert s r h)

/-- C1: the bronze-to-silver insert path is an upsert keyed on the
(location, observation-hour) pair, so running the Silver Transformer twice
over the same bounded window — hence with the same derived observation
batch — yields the same final silver row count as running it once, and
re-execution never creates a duplicate silver row for a pair: after one or
two runs over a key-unique table, the keys are still pairwise distinct. -/
theorem silver_transform_idempotent_row_count :
    ∀ batch silver : List SilverRow,
      (silver_transform batch (silver_transform batch silver)).length =
        (silver_transform batch silver).length ∧
      ((silver.map SilverRow.key).Nodup →
        ((silver_transform batch silver).map SilverRow.key).Nodup ∧
        ((silver_transform batch (silver_transform batch silver)).map SilverRow.key).Nodup) := by
  intro batch silver
  constructor
  · apply length_transform_of_present
    intro r hr
    exact (has_key_transform batch silver r.key).mpr (.inr ⟨r, hr, rfl⟩)
  · intro h
    exact ⟨nodup_key_transform batch silver h,
      nodup_key_transform batch _ (nodup_key_transform batch silver h)⟩

theorem silver_transform_idempotent_row_count_witness :
    (silver_transform sample_batch (silver_transform sample_batch sample_silver)).length =
      (silver_transform sample_batch sample_silver).length ∧
    ((silver_transform sample_batch sample_silver).map SilverRow.key).Nodup :=
  ⟨(silver_transform_idempotent_row_count sample_batch sample_silver).1,
   ((silver_transform_idempotent_row_count sample_batch sample_silver).2 (by decide)).1⟩
